import Mathlib

/-
Verification of the orchestration and caching strategy of the
codeforces-editorial-finder repository
(src/src/application/orchestrator.py, class AsyncEditorialOrchestrator).

The orchestrator is a linear async pipeline; we embed it as a pure
function over an environment of collaborator behaviours.  Each
collaborator call is a function returning `Except PyExc α` (Python
exceptions become `PyExc` values), and the run additionally produces the
list of collaborator invocations (`Event`s) in call order, which lets us
state the invocation-count / ordering / short-circuit properties.
The orchestrator's own attributes (`self.http_client`, `self.ai_client`,
`self.cache_client`, `self.use_cache`) are a record threaded through the
methods; no statement of the Python methods assigns to `self`, so the
embedding returns the record unchanged.

Parts of the repository referenced by orchestrator.py but not present in
its sources (the `domain.models` module: `CachedEditorial.to_dict`,
`CachedEditorial.from_dict`, `ProblemIdentifier.cache_key`, the shapes of
`Editorial`, `ProblemData`, `TutorialFormat`) are modelled from the spec;
their doc comments say so explicitly.
-/

/-- Python exceptions, as the orchestrator distinguishes them:
`codeforcesEditorialError` is the domain error (class
`CodeforcesEditorialError`, with message and `__cause__`); `other` is any
other exception (class name and message). -/
inductive PyExc where
  | codeforcesEditorialError (msg : String) (cause : Option PyExc)
  | other (name : String) (msg : String)

/-- Whether the exception is an instance of `CodeforcesEditorialError`. -/
def PyExc.isDomain : PyExc → Bool
  | .codeforcesEditorialError _ _ => true
  | .other _ _ => false

/-- The exception's message (`str(e)`). -/
def PyExc.msg : PyExc → String
  | .codeforcesEditorialError m _ => m
  | .other _ m => m

/-- The exception's `__cause__` (set by `raise ... from e`). -/
def PyExc.cause : PyExc → Option PyExc
  | .codeforcesEditorialError _ c => c
  | .other _ _ => none

/-- Modelled from the spec (domain.models is not in src):
`ProblemIdentifier` is an immutable value of contest code and problem
index/letter. -/
structure ProblemIdentifier where
  contest : Nat
  index : String
deriving DecidableEq, Repr

/-- Modelled from the spec (domain.models is not in src): the derived
`cache_key`, a deterministic function of the coordinates, used as the sole
cache addressing mechanism. -/
def ProblemIdentifier.cache_key (p : ProblemIdentifier) : String :=
  "editorial:" ++ toString p.contest ++ ":" ++ p.index

/-- Modelled from the spec (domain.models is not in src): `ProblemData`
is problem metadata, at minimum a display `title` (the orchestrator only
reads `.title`). -/
structure ProblemData where
  title : String
deriving DecidableEq, Repr

/-- Modelled from the spec (domain.models is not in src):
`TutorialFormat` is an enumerated tag for how the tutorial content was
structured (e.g. prose, markdown, structured). -/
inductive TutorialFormat where
  | prose
  | markdown
  | structured
deriving DecidableEq, Repr

/-- Modelled from the spec (domain.models is not in src): `Editorial` is
the structured output of extraction, treated as an opaque serializable
value by the orchestrator. -/
structure Editorial where
  content : String
deriving DecidableEq, Repr

/-- Modelled from the spec (domain.tutorial data shape is not in src):
the tutorial-content fetcher yields content plus its format (the
orchestrator reads `.format` and passes the whole value to extraction). -/
structure TutorialData where
  content : String
  format : TutorialFormat
deriving DecidableEq, Repr

/-- A primitive-or-structured value of the plain key-value representation
used for cache storage. -/
inductive Val where
  | str (s : String)
  | nat (n : Nat)
  | dict (entries : List (String × Val))

/-- A plain key-value mapping (the raw representation stored in the cache
backend). -/
def Dict := List (String × Val)

/-- Python truthiness of a mapping: falsy iff empty (the orchestrator's
`if cached_data:` check). -/
def dictTruthy (d : Dict) : Bool :=
  !(List.isEmpty d)

/-- Modelled from the spec (domain.models is not in src):
`CachedEditorial` is the cache envelope
`{problem identifier, editorial, tutorial_url, tutorial_format}`. -/
structure CachedEditorial where
  problem : ProblemIdentifier
  editorial : Editorial
  tutorial_url : String
  tutorial_format : TutorialFormat
deriving DecidableEq, Repr

/-- Serialize a `TutorialFormat` tag to its string name. -/
def TutorialFormat.toStr : TutorialFormat → String
  | .prose => "prose"
  | .markdown => "markdown"
  | .structured => "structured"

/-- Deserialize a `TutorialFormat` tag from its string name. -/
def TutorialFormat.ofStr (s : String) : Except PyExc TutorialFormat :=
  if s = "prose" then .ok .prose
  else if s = "markdown" then .ok .markdown
  else if s = "structured" then .ok .structured
  else .error (.other "ValueError" ("unknown tutorial format: " ++ s))

/-- Modelled from the spec (domain.models is not in src):
`CachedEditorial.to_dict` serializes the envelope to a plain key-value
representation (string keys, primitive/structured values). -/
def CachedEditorial.to_dict (x : CachedEditorial) : Dict :=
  [("problem", Val.dict [("contest", Val.nat x.problem.contest),
                         ("index", Val.str x.problem.index)]),
   ("editorial", Val.dict [("content", Val.str x.editorial.content)]),
   ("tutorial_url", Val.str x.tutorial_url),
   ("tutorial_format", Val.str x.tutorial_format.toStr)]

/-- Look up a key in a `Dict`, raising `KeyError` when absent. -/
def Dict.getKey (d : Dict) (k : String) : Except PyExc Val :=
  match List.lookup k d with
  | some v => .ok v
  | none => .error (.other "KeyError" k)

/-- Read a `Val` as a string, raising `TypeError` otherwise. -/
def Val.asStr : Val → Except PyExc String
  | .str s => .ok s
  | _ => .error (.other "TypeError" "expected a string value")

/-- Read a `Val` as a natural number, raising `TypeError` otherwise. -/
def Val.asNat : Val → Except PyExc Nat
  | .nat n => .ok n
  | _ => .error (.other "TypeError" "expected an integer value")

/-- Read a `Val` as a nested mapping, raising `TypeError` otherwise. -/
def Val.asDict : Val → Except PyExc Dict
  | .dict d => .ok d
  | _ => .error (.other "TypeError" "expected a mapping value")

/-- Modelled from the spec (domain.models is not in src):
`CachedEditorial.from_dict` deserializes the envelope from its plain
key-value representation; a malformed representation raises. -/
def CachedEditorial.from_dict (d : Dict) : Except PyExc CachedEditorial := do
  let pv ← Dict.getKey d "problem"
  let pd ← Val.asDict pv
  let contest ← (← Dict.getKey pd "contest").asNat
  let index ← (← Dict.getKey pd "index").asStr
  let ev ← Dict.getKey d "editorial"
  let ed ← Val.asDict ev
  let content ← (← Dict.getKey ed "content").asStr
  let turl ← (← Dict.getKey d "tutorial_url").asStr
  let fmtStr ← (← Dict.getKey d "tutorial_format").asStr
  let fmt ← TutorialFormat.ofStr fmtStr
  pure { problem := { contest := contest, index := index },
         editorial := { content := content },
         tutorial_url := turl,
         tutorial_format := fmt }

/-- One collaborator invocation made during a run, recorded in call
order. -/
inductive Event where
  | cacheGet (key : String)
  | cacheSet (key : String) (value : Dict)
  | flushdb
  | parseProblemPage (identifier : ProblemIdentifier)
  | findTutorial (identifier : ProblemIdentifier)
  | parseTutorial (url : String)
  | extract (tutorial_data : TutorialData) (identifier : ProblemIdentifier)
      (title : String)

/-- Whether an event is a cache lookup (`cache_client.get`). -/
def Event.isCacheGet : Event → Bool
  | .cacheGet _ => true
  | _ => false

/-- Whether an event is a cache store (`cache_client.set`). -/
def Event.isCacheSet : Event → Bool
  | .cacheSet _ _ => true
  | _ => false

/-- Whether an event is a tutorial-locator call (`find_tutorial`). -/
def Event.isFindTutorial : Event → Bool
  | .findTutorial _ => true
  | _ => false

/-- Whether an event is a tutorial-content fetch (`tutorial_parser.parse`). -/
def Event.isParseTutorial : Event → Bool
  | .parseTutorial _ => true
  | _ => false

/-- Whether an event is an editorial extraction (`extract`). -/
def Event.isExtract : Event → Bool
  | .extract _ _ _ => true
  | _ => false

/-- Whether an event is a problem-page fetch (`parse_problem_page`). -/
def Event.isParseProblemPage : Event → Bool
  | .parseProblemPage _ => true
  | _ => false

/-- The behaviours of the injected collaborators: each operation either
returns a value or raises a `PyExc`.  `urlParse` is `URLParser.parse`,
`cacheGet`/`cacheSet`/`flushdb` the cache backend, and the rest the four
pipeline collaborators. -/
structure Env where
  urlParse : String → Except PyExc ProblemIdentifier
  cacheGet : String → Except PyExc (Option Dict)
  cacheSet : String → Dict → Except PyExc Unit
  flushdb : Except PyExc Unit
  parseProblemPage : ProblemIdentifier → Except PyExc ProblemData
  findTutorial : ProblemIdentifier → Except PyExc String
  parseTutorial : String → Except PyExc TutorialData
  extract : TutorialData → ProblemIdentifier → String → Except PyExc Editorial

/-- The orchestrator's attributes set by `__init__`: the injected clients
(collaborator references are opaque, represented by numeric identities)
and the computed `use_cache` flag. -/
structure AsyncEditorialOrchestrator where
  http_client : Nat
  ai_client : Nat
  cache_client : Option Nat
  use_cache : Bool
deriving DecidableEq, Repr

/-- `AsyncEditorialOrchestrator.__init__`: stores the clients and sets
`self.use_cache = use_cache and cache_client is not None`
(orchestrator.py line 36). -/
def AsyncEditorialOrchestrator.init (http_client ai_client : Nat)
    (cache_client : Option Nat) (use_cache : Bool) :
    AsyncEditorialOrchestrator :=
  { http_client := http_client,
    ai_client := ai_client,
    cache_client := cache_client,
    use_cache := use_cache && cache_client.isSome }

/-- `AsyncEditorialOrchestrator._get_from_cache` (orchestrator.py lines
94-113): returns the cached `Editorial` on a deserializable truthy hit
and `None` otherwise; every exception inside is caught and degrades to
`None`.  The trace records the backend `get` call when it is made. -/
def AsyncEditorialOrchestrator.get_from_cache
    (self : AsyncEditorialOrchestrator) (env : Env)
    (identifier : ProblemIdentifier) : List Event × Option Editorial :=
  if self.cache_client.isNone then
    ([], none)
  else
    ([Event.cacheGet identifier.cache_key],
     match env.cacheGet identifier.cache_key with
     | .error _ => none
     | .ok cached_data =>
       match cached_data with
       | some d =>
         if dictTruthy d then
           match CachedEditorial.from_dict d with
           | .ok cached => some cached.editorial
           | .error _ => none
         else none
       | none => none)

/-- `AsyncEditorialOrchestrator._save_to_cache` (orchestrator.py lines
115-138): builds the `CachedEditorial` envelope, serializes it and writes
it at `identifier.cache_key`; every exception inside is caught and
swallowed.  The trace records the backend `set` call when it is made. -/
def AsyncEditorialOrchestrator.save_to_cache
    (self : AsyncEditorialOrchestrator) (env : Env)
    (identifier : ProblemIdentifier) (editorial : Editorial) (url : String)
    (fmt : TutorialFormat) : List Event :=
  if self.cache_client.isNone then
    []
  else
    let cached_editorial : CachedEditorial :=
      { problem := identifier, editorial := editorial,
        tutorial_url := url, tutorial_format := fmt }
    let cached_data := cached_editorial.to_dict
    match env.cacheSet identifier.cache_key cached_data with
    | .ok _ => [Event.cacheSet identifier.cache_key cached_data]
    | .error _ => [Event.cacheSet identifier.cache_key cached_data]

/-- The `try` block of `AsyncEditorialOrchestrator.get_editorial`
(orchestrator.py lines 49-86): resolve the identifier, try the cache (on
a hit, fetch `ProblemData` and return the cached editorial with it), and
otherwise run the four-step pipeline followed by the cache write.
Returns the invocation trace and the outcome before the top-level
exception handler. -/
def AsyncEditorialOrchestrator.get_editorial_try
    (self : AsyncEditorialOrchestrator) (env : Env) (url : String) :
    List Event × Except PyExc (Editorial × ProblemData) :=
  match env.urlParse url with
  | .error e => ([], .error e)
  | .ok identifier =>
    let hit : List Event × Option Editorial :=
      if self.use_cache && self.cache_client.isSome then
        self.get_from_cache env identifier
      else ([], none)
    match hit with
    | (tr, some cached_result) =>
      match env.parseProblemPage identifier with
      | .ok problem_data =>
        (tr ++ [Event.parseProblemPage identifier],
         .ok (cached_result, problem_data))
      | .error e => (tr ++ [Event.parseProblemPage identifier], .error e)
    | (tr, none) =>
      match env.parseProblemPage identifier with
      | .error e => (tr ++ [Event.parseProblemPage identifier], .error e)
      | .ok problem_data =>
        match env.findTutorial identifier with
        | .error e =>
          (tr ++ [Event.parseProblemPage identifier,
                  Event.findTutorial identifier], .error e)
        | .ok tutorial_url =>
          match env.parseTutorial tutorial_url with
          | .error e =>
            (tr ++ [Event.parseProblemPage identifier,
                    Event.findTutorial identifier,
                    Event.parseTutorial tutorial_url], .error e)
          | .ok tutorial_data =>
            match env.extract tutorial_data identifier problem_data.title with
            | .error e =>
              (tr ++ [Event.parseProblemPage identifier,
                      Event.findTutorial identifier,
                      Event.parseTutorial tutorial_url,
                      Event.extract tutorial_data identifier
                        problem_data.title], .error e)
            | .ok editorial =>
              let saveTr :=
                if self.use_cache && self.cache_client.isSome then
                  self.save_to_cache env identifier editorial tutorial_url
                    tutorial_data.format
                else []
              (tr ++ [Event.parseProblemPage identifier,
                      Event.findTutorial identifier,
                      Event.parseTutorial tutorial_url,
                      Event.extract tutorial_data identifier
                        problem_data.title] ++ saveTr,
               .ok (editorial, problem_data))

/-- The top-level exception handler of `get_editorial` (orchestrator.py
lines 88-92): a `CodeforcesEditorialError` is re-raised unchanged; any
other exception is wrapped once in a `CodeforcesEditorialError` whose
cause is the original exception. -/
def handleError (e : PyExc) : PyExc :=
  if e.isDomain then e
  else .codeforcesEditorialError ("Failed to get editorial: " ++ e.msg)
        (some e)

/-- `AsyncEditorialOrchestrator.get_editorial` (orchestrator.py lines
44-92): the `try` block followed by the top-level handler.  The result is
the (unchanged: no statement of the method assigns to `self`) attribute
record, the invocation trace, and the outcome. -/
def AsyncEditorialOrchestrator.get_editorial
    (self : AsyncEditorialOrchestrator) (env : Env) (url : String) :
    AsyncEditorialOrchestrator × List Event ×
      Except PyExc (Editorial × ProblemData) :=
  let body := self.get_editorial_try env url
  (self, body.1,
   match body.2 with
   | .ok v => .ok v
   | .error e => .error (handleError e))

/-- `AsyncEditorialOrchestrator.clear_cache` (orchestrator.py lines
140-146): with a cache client, calls the backend `flushdb` and lets any
error propagate; without one, logs a warning and does nothing. -/
def AsyncEditorialOrchestrator.clear_cache
    (self : AsyncEditorialOrchestrator) (env : Env) :
    List Event × Except PyExc Unit :=
  match self.cache_client with
  | some _ => ([Event.flushdb], env.flushdb)
  | none => ([], .ok ())

/-- Whether an event is a cache backend operation (`get` or `set`). -/
def Event.isCacheOp (e : Event) : Bool :=
  e.isCacheGet || e.isCacheSet

/-- Whether a trace contains no cache backend operations. -/
def noCacheOps (tr : List Event) : Bool :=
  tr.all (fun e => !e.isCacheOp)

/-- Number of events in a trace satisfying a predicate (invocation
count). -/
def countEvents (p : Event → Bool) (tr : List Event) : Nat :=
  (tr.filter p).length

/-- Sample problem identifier (contest 1234, problem A). -/
def identifierA : ProblemIdentifier := { contest := 1234, index := "A" }

/-- Sample problem metadata. -/
def problemDataA : ProblemData := { title := "Watermelon" }

/-- Sample extracted editorial. -/
def editorialA : Editorial := { content := "Split into two even parts." }

/-- Sample tutorial content with its format. -/
def tutorialDataA : TutorialData :=
  { content := "Tutorial body", format := TutorialFormat.markdown }

/-- Sample tutorial URL. -/
def tutorialUrlA : String := "https://codeforces.com/blog/entry/100"

/-- Sample problem URL. -/
def urlA : String := "https://codeforces.com/problemset/problem/1234/A"

/-- Sample cache envelope. -/
def cachedA : CachedEditorial :=
  { problem := identifierA, editorial := editorialA,
    tutorial_url := tutorialUrlA, tutorial_format := TutorialFormat.markdown }

/-- Sample non-domain exception raised by a collaborator. -/
def exValueError : PyExc := PyExc.other "ValueError" "boom"

/-- Sample non-domain exception raised by the cache backend. -/
def exRedisError : PyExc := PyExc.other "ConnectionError" "redis down"

/-- Orchestrator constructed with a cache client and caching enabled. -/
def orchA : AsyncEditorialOrchestrator :=
  AsyncEditorialOrchestrator.init 1 2 (some 3) true

/-- Collaborator behaviours for a run where the cache misses and every
pipeline step succeeds. -/
def envMiss : Env :=
  { urlParse := fun _ => .ok identifierA,
    cacheGet := fun _ => .ok none,
    cacheSet := fun _ _ => .ok (),
    flushdb := .ok (),
    parseProblemPage := fun _ => .ok problemDataA,
    findTutorial := fun _ => .ok tutorialUrlA,
    parseTutorial := fun _ => .ok tutorialDataA,
    extract := fun _ _ _ => .ok editorialA }

/-- Behaviours where the cache holds the serialized sample envelope. -/
def envHit : Env :=
  { envMiss with
    cacheGet := fun _ => .ok (some (CachedEditorial.to_dict cachedA)) }

/-- Behaviours where the tutorial locator raises a non-domain error. -/
def envFtErr : Env :=
  { envMiss with findTutorial := fun _ => .error exValueError }

/-- Behaviours where both cache read and cache write raise. -/
def envCacheErr : Env :=
  { envMiss with
    cacheGet := fun _ => .error exRedisError
    cacheSet := fun _ _ => .error exRedisError }

/-- Behaviours where the cache backend returns a present but empty
(falsy) mapping. -/
def envFalsy : Env :=
  { envMiss with cacheGet := fun _ => .ok (some ([] : Dict)) }

/-- Behaviours with a cache hit but a failing problem-page fetch. -/
def envHitPpErr : Env :=
  { envMiss with
    cacheGet := fun _ => .ok (some (CachedEditorial.to_dict cachedA))
    parseProblemPage := fun _ => .error exValueError }

/-- Behaviours where the backend flush raises. -/
def envFlushErr : Env :=
  { envMiss with flushdb := .error exRedisError }

/-- With a cache backend configured, `_get_from_cache` makes exactly one
backend `get` call, whatever its outcome. -/
theorem get_from_cache_trace (self : AsyncEditorialOrchestrator) (env : Env)
    (identifier : ProblemIdentifier) (h : self.cache_client.isSome = true) :
    (self.get_from_cache env identifier).1 =
      [Event.cacheGet identifier.cache_key] := by
  cases hc : self.cache_client with
  | none => rw [hc] at h; simp at h
  | some c =>
    unfold AsyncEditorialOrchestrator.get_from_cache
    rw [hc]
    rfl

/-- With a cache backend configured, `_save_to_cache` makes exactly one
backend `set` call with the serialized envelope, whatever its outcome. -/
theorem save_to_cache_trace (self : AsyncEditorialOrchestrator) (env : Env)
    (identifier : ProblemIdentifier) (editorial : Editorial) (url : String)
    (fmt : TutorialFormat) (h : self.cache_client.isSome = true) :
    self.save_to_cache env identifier editorial url fmt =
      [Event.cacheSet identifier.cache_key
        (CachedEditorial.to_dict
          { problem := identifier, editorial := editorial,
            tutorial_url := url, tutorial_format := fmt })] := by
  cases hc : self.cache_client with
  | none => rw [hc] at h; simp at h
  | some c =>
    unfold AsyncEditorialOrchestrator.save_to_cache
    rw [hc, if_neg (by simp)]
    dsimp only
    split <;> rfl

/-- A failing cache read makes `_get_from_cache` behave exactly as if the
backend had reported the key absent. -/
theorem cacheGet_error_gfc (self : AsyncEditorialOrchestrator) (env : Env)
    (identifier : ProblemIdentifier) (ex : PyExc)
    (hget : env.cacheGet identifier.cache_key = .error ex) :
    self.get_from_cache env identifier =
      self.get_from_cache { env with cacheGet := fun _ => .ok none }
        identifier := by
  obtain ⟨up, cg, cs, fd, pp, ft, pt, exf⟩ := env
  dsimp only at hget
  unfold AsyncEditorialOrchestrator.get_from_cache
  cases hc : self.cache_client with
  | none => rfl
  | some c =>
    dsimp only
    rw [hget]

/-- With `use_cache` false, `get_editorial` performs no cache backend
operation, whichever way each pipeline step turns out. -/
theorem no_cache_calls (self : AsyncEditorialOrchestrator) (env : Env)
    (url : String) (huse : self.use_cache = false) :
    noCacheOps (self.get_editorial env url).2.1 = true := by
  unfold AsyncEditorialOrchestrator.get_editorial
    AsyncEditorialOrchestrator.get_editorial_try
  simp only [huse, Bool.false_and, Bool.false_eq_true, if_false]
  rcases env.urlParse url with e1 | identifier
  · rfl
  · dsimp only
    rcases env.parseProblemPage identifier with e2 | pd
    · rfl
    · dsimp only
      rcases env.findTutorial identifier with e3 | turl
      · rfl
      · dsimp only
        rcases env.parseTutorial turl with e4 | td
        · rfl
        · dsimp only
          rcases env.extract td identifier pd.title with e5 | ed <;> rfl

/-- C1: for every call to `get_editorial` where the cache lookup returns
a cached editorial, none of the tutorial locator (`find_tutorial`), the
tutorial content fetcher (`parse`), or the editorial extractor
(`extract`) is invoked, the `ProblemData` is still fetched via
`parse_problem_page` (exactly once), and the call returns the pair of the
cached editorial and the freshly fetched problem data. -/
theorem C1_cache_hit_short_circuit (self : AsyncEditorialOrchestrator)
    (env : Env) (url : String) (identifier : ProblemIdentifier)
    (ed : Editorial) (pd : ProblemData)
    (hurl : env.urlParse url = .ok identifier)
    (huse : self.use_cache = true)
    (hcc : self.cache_client.isSome = true)
    (hhit : (self.get_from_cache env identifier).2 = some ed)
    (hpp : env.parseProblemPage identifier = .ok pd) :
    (self.get_editorial env url).2.2 = .ok (ed, pd) ∧
    (self.get_editorial env url).2.1 =
      [Event.cacheGet identifier.cache_key,
       Event.parseProblemPage identifier] ∧
    countEvents Event.isFindTutorial (self.get_editorial env url).2.1 = 0 ∧
    countEvents Event.isParseTutorial (self.get_editorial env url).2.1 = 0 ∧
    countEvents Event.isExtract (self.get_editorial env url).2.1 = 0 ∧
    countEvents Event.isParseProblemPage (self.get_editorial env url).2.1
      = 1 := by
  have h1 := get_from_cache_trace self env identifier hcc
  have hgc : self.get_from_cache env identifier =
      ([Event.cacheGet identifier.cache_key], some ed) := Prod.ext h1 hhit
  unfold AsyncEditorialOrchestrator.get_editorial
    AsyncEditorialOrchestrator.get_editorial_try
  rw [hurl]
  simp [huse, hcc, hgc, hpp, countEvents, Event.isFindTutorial,
    Event.isParseTutorial, Event.isExtract, Event.isParseProblemPage]

/-- Witness for C1: a concrete cache-hit run short-circuits the
pipeline. -/
theorem C1_cache_hit_short_circuit_witness :
    (orchA.get_from_cache envHit identifierA).2 = some editorialA ∧
    ((orchA.get_editorial envHit urlA).2.2 = .ok (editorialA, problemDataA) ∧
     (orchA.get_editorial envHit urlA).2.1 =
       [Event.cacheGet identifierA.cache_key,
        Event.parseProblemPage identifierA] ∧
     countEvents Event.isFindTutorial (orchA.get_editorial envHit urlA).2.1
       = 0 ∧
     countEvents Event.isParseTutorial (orchA.get_editorial envHit urlA).2.1
       = 0 ∧
     countEvents Event.isExtract (orchA.get_editorial envHit urlA).2.1 = 0 ∧
     countEvents Event.isParseProblemPage
       (orchA.get_editorial envHit urlA).2.1 = 1) :=
  ⟨rfl, C1_cache_hit_short_circuit orchA envHit urlA identifierA editorialA
    problemDataA rfl rfl rfl rfl rfl⟩

/-- C2: for every call to `get_editorial`, an exception raised inside the
`try` block that is not a `CodeforcesEditorialError` surfaces wrapped
exactly once in a `CodeforcesEditorialError` carrying the original
exception as its cause, while a `CodeforcesEditorialError` is re-raised
unchanged and never double-wrapped. -/
theorem C2_error_normalization (self : AsyncEditorialOrchestrator)
    (env : Env) (url : String) (e : PyExc)
    (h : (self.get_editorial_try env url).2 = .error e) :
    (self.get_editorial env url).2.2 = .error (handleError e) ∧
    (e.isDomain = true → handleError e = e) ∧
    (e.isDomain = false →
      handleError e =
        PyExc.codeforcesEditorialError
          ("Failed to get editorial: " ++ e.msg) (some e) ∧
      (handleError e).isDomain = true ∧
      (handleError e).cause = some e) := by
  refine ⟨?_, ?_, ?_⟩
  · unfold AsyncEditorialOrchestrator.get_editorial
    dsimp only
    rw [h]
  · intro hd
    unfold handleError
    rw [hd]
    rfl
  · intro hd
    unfold handleError
    rw [hd]
    exact ⟨rfl, rfl, rfl⟩

/-- Witness for C2: a concrete non-domain locator failure surfaces
wrapped once, with the original exception as the cause. -/
theorem C2_error_normalization_witness :
    (orchA.get_editorial_try envFtErr urlA).2 = .error exValueError ∧
    (orchA.get_editorial envFtErr urlA).2.2 =
      .error (handleError exValueError) ∧
    handleError exValueError =
      PyExc.codeforcesEditorialError
        ("Failed to get editorial: " ++ exValueError.msg)
        (some exValueError) ∧
    (handleError exValueError).isDomain = true ∧
    (handleError exValueError).cause = some exValueError :=
  ⟨rfl, (C2_error_normalization orchA envFtErr urlA exValueError rfl).1,
   ((C2_error_normalization orchA envFtErr urlA exValueError rfl).2.2
     rfl).1,
   ((C2_error_normalization orchA envFtErr urlA exValueError rfl).2.2
     rfl).2.1,
   ((C2_error_normalization orchA envFtErr urlA exValueError rfl).2.2
     rfl).2.2⟩

/-- C3: no cache read or write failure is ever surfaced by
`get_editorial`: a failing cache read makes the call behave exactly as on
a cache miss (and so it can still return a successful result), and a
failing cache write after a successful extraction still lets the call
return the produced pair. -/
theorem C3_cache_fault_tolerance (self : AsyncEditorialOrchestrator)
    (env : Env) (url : String) (identifier : ProblemIdentifier)
    (ex1 ex2 : PyExc) (pd : ProblemData) (turl : String) (td : TutorialData)
    (ed : Editorial)
    (hurl : env.urlParse url = .ok identifier) :
    (env.cacheGet identifier.cache_key = .error ex1 →
      self.get_editorial env url =
        self.get_editorial { env with cacheGet := fun _ => .ok none } url) ∧
    (self.use_cache = true → self.cache_client.isSome = true →
      (self.get_from_cache env identifier).2 = none →
      env.parseProblemPage identifier = .ok pd →
      env.findTutorial identifier = .ok turl →
      env.parseTutorial turl = .ok td →
      env.extract td identifier pd.title = .ok ed →
      env.cacheSet identifier.cache_key
        (CachedEditorial.to_dict
          { problem := identifier, editorial := ed,
            tutorial_url := turl, tutorial_format := td.format })
        = .error ex2 →
      (self.get_editorial env url).2.2 = .ok (ed, pd)) := by
  constructor
  · intro hget
    have hgfc := cacheGet_error_gfc self env identifier ex1 hget
    obtain ⟨up, cg, cs, fd, pp, ft, pt, exf⟩ := env
    dsimp only at hurl hget hgfc
    unfold AsyncEditorialOrchestrator.get_editorial
      AsyncEditorialOrchestrator.get_editorial_try
    dsimp only
    rw [hurl]
    dsimp only
    rw [hgfc]
    rfl
  · intro huse hcc hmiss hpp hft hpt hex _hset
    have h1 := get_from_cache_trace self env identifier hcc
    have hgc : self.get_from_cache env identifier =
        ([Event.cacheGet identifier.cache_key], none) := Prod.ext h1 hmiss
    unfold AsyncEditorialOrchestrator.get_editorial
      AsyncEditorialOrchestrator.get_editorial_try
    rw [hurl]
    simp [huse, hcc, hgc, hpp, hft, hpt, hex]

/-- Witness for C3: with a backend whose read and write both raise, the
call equals the cache-miss call and still returns the produced pair. -/
theorem C3_cache_fault_tolerance_witness :
    envCacheErr.urlParse urlA = .ok identifierA ∧
    orchA.get_editorial envCacheErr urlA =
      orchA.get_editorial
        { envCacheErr with cacheGet := fun _ => .ok none } urlA ∧
    (orchA.get_editorial envCacheErr urlA).2.2 =
      .ok (editorialA, problemDataA) :=
  ⟨rfl,
   (C3_cache_fault_tolerance orchA envCacheErr urlA identifierA
     exRedisError exRedisError problemDataA tutorialUrlA tutorialDataA
     editorialA rfl).1 rfl,
   (C3_cache_fault_tolerance orchA envCacheErr urlA identifierA
     exRedisError exRedisError problemDataA tutorialUrlA tutorialDataA
     editorialA rfl).2 rfl rfl rfl rfl rfl rfl rfl (by rfl)⟩

/-- C4: for every call to `get_editorial` where the cache lookup returns
absent, the four pipeline steps (problem-page fetch, tutorial locate,
tutorial-content fetch, editorial extraction) are each invoked exactly
once, in that order, and a cache store call with the produced editorial
follows them before the call returns. -/
theorem C4_cache_miss_full_pipeline (self : AsyncEditorialOrchestrator)
    (env : Env) (url : String) (identifier : ProblemIdentifier)
    (pd : ProblemData) (turl : String) (td : TutorialData) (ed : Editorial)
    (hurl : env.urlParse url = .ok identifier)
    (huse : self.use_cache = true)
    (hcc : self.cache_client.isSome = true)
    (hmiss : (self.get_from_cache env identifier).2 = none)
    (hpp : env.parseProblemPage identifier = .ok pd)
    (hft : env.findTutorial identifier = .ok turl)
    (hpt : env.parseTutorial turl = .ok td)
    (hex : env.extract td identifier pd.title = .ok ed) :
    (self.get_editorial env url).2.1 =
      [Event.cacheGet identifier.cache_key,
       Event.parseProblemPage identifier,
       Event.findTutorial identifier,
       Event.parseTutorial turl,
       Event.extract td identifier pd.title,
       Event.cacheSet identifier.cache_key
         (CachedEditorial.to_dict
           { problem := identifier, editorial := ed,
             tutorial_url := turl, tutorial_format := td.format })] ∧
    (self.get_editorial env url).2.2 = .ok (ed, pd) ∧
    countEvents Event.isParseProblemPage (self.get_editorial env url).2.1
      = 1 ∧
    countEvents Event.isFindTutorial (self.get_editorial env url).2.1 = 1 ∧
    countEvents Event.isParseTutorial (self.get_editorial env url).2.1 = 1 ∧
    countEvents Event.isExtract (self.get_editorial env url).2.1 = 1 ∧
    countEvents Event.isCacheSet (self.get_editorial env url).2.1 = 1 := by
  have h1 := get_from_cache_trace self env identifier hcc
  have hgc : self.get_from_cache env identifier =
      ([Event.cacheGet identifier.cache_key], none) := Prod.ext h1 hmiss
  have hsv := save_to_cache_trace self env identifier ed turl td.format hcc
  unfold AsyncEditorialOrchestrator.get_editorial
    AsyncEditorialOrchestrator.get_editorial_try
  rw [hurl]
  simp [huse, hcc, hgc, hpp, hft, hpt, hex, hsv, countEvents,
    Event.isFindTutorial, Event.isParseTutorial, Event.isExtract,
    Event.isParseProblemPage, Event.isCacheSet]

/-- Witness for C4: a concrete cache-miss run performs the four steps in
order and then the store. -/
theorem C4_cache_miss_full_pipeline_witness :
    (orchA.get_from_cache envMiss identifierA).2 = none ∧
    ((orchA.get_editorial envMiss urlA).2.1 =
       [Event.cacheGet identifierA.cache_key,
        Event.parseProblemPage identifierA,
        Event.findTutorial identifierA,
        Event.parseTutorial tutorialUrlA,
        Event.extract tutorialDataA identifierA problemDataA.title,
        Event.cacheSet identifierA.cache_key
          (CachedEditorial.to_dict
            { problem := identifierA, editorial := editorialA,
              tutorial_url := tutorialUrlA,
              tutorial_format := tutorialDataA.format })] ∧
     (orchA.get_editorial envMiss urlA).2.2 =
       .ok (editorialA, problemDataA) ∧
     countEvents Event.isParseProblemPage
       (orchA.get_editorial envMiss urlA).2.1 = 1 ∧
     countEvents Event.isFindTutorial (orchA.get_editorial envMiss urlA).2.1
       = 1 ∧
     countEvents Event.isParseTutorial
       (orchA.get_editorial envMiss urlA).2.1 = 1 ∧
     countEvents Event.isExtract (orchA.get_editorial envMiss urlA).2.1
       = 1 ∧
     countEvents Event.isCacheSet (orchA.get_editorial envMiss urlA).2.1
       = 1) :=
  ⟨rfl, C4_cache_miss_full_pipeline orchA envMiss urlA identifierA
    problemDataA tutorialUrlA tutorialDataA editorialA rfl rfl rfl rfl rfl
    rfl rfl rfl⟩

/-- C5 counterexample: an orchestrator constructed with `use_cache` false
but a cache client configured is in the class the claim quantifies over,
yet its `clear_cache` calls the backend flush and propagates the
backend's error — it is neither a no-op nor free of raising. -/
theorem C5_disabled_cache_counterexample :
    (AsyncEditorialOrchestrator.init 1 2 (some 3) false).use_cache
      = false ∧
    (AsyncEditorialOrchestrator.init 1 2 (some 3) false).clear_cache
      envFlushErr = ([Event.flushdb], Except.error exRedisError) ∧
    (AsyncEditorialOrchestrator.init 1 2 (some 3) false).clear_cache
      envFlushErr ≠ ([], Except.ok ()) :=
  ⟨rfl, rfl, by
    intro h
    rw [show (AsyncEditorialOrchestrator.init 1 2 (some 3) false).clear_cache
          envFlushErr = ([Event.flushdb], Except.error exRedisError)
        from rfl] at h
    simp at h⟩

/-- C5 (amended): for every orchestrator constructed with caching
disabled (`use_cache` false) or with no cache backend (`cache_client`
None), `get_editorial` never calls the cache lookup or store operations;
and when no cache backend is configured, `clear_cache` is a no-op that
does not raise.  (The original claim also asserted the `clear_cache`
no-op for `use_cache` false with a backend configured; `clear_cache`
checks only `self.cache_client`, so there it flushes the backend and
propagates its errors.) -/
theorem C5_disabled_cache_amended (http ai : Nat) (cc : Option Nat)
    (uc : Bool) (env : Env) (url : String)
    (h : uc = false ∨ cc = none) :
    noCacheOps
      ((AsyncEditorialOrchestrator.init http ai cc uc).get_editorial env
        url).2.1 = true ∧
    (cc = none →
      (AsyncEditorialOrchestrator.init http ai cc uc).clear_cache env =
        ([], Except.ok ())) := by
  have huse :
      (AsyncEditorialOrchestrator.init http ai cc uc).use_cache = false := by
    rcases h with h | h <;> simp [AsyncEditorialOrchestrator.init, h]
  refine ⟨no_cache_calls _ env url huse, fun hn => ?_⟩
  unfold AsyncEditorialOrchestrator.clear_cache
  simp [AsyncEditorialOrchestrator.init, hn]

/-- Witness for amended C5: with no cache backend, a full successful run
makes no cache calls and `clear_cache` is a silent no-op. -/
theorem C5_disabled_cache_witness :
    ((true = false) ∨ ((none : Option Nat) = none)) ∧
    noCacheOps
      ((AsyncEditorialOrchestrator.init 1 2 none true).get_editorial envMiss
        urlA).2.1 = true ∧
    (AsyncEditorialOrchestrator.init 1 2 none true).clear_cache envMiss =
      ([], Except.ok ()) :=
  ⟨Or.inr rfl,
   (C5_disabled_cache_amended 1 2 none true envMiss urlA (Or.inr rfl)).1,
   (C5_disabled_cache_amended 1 2 none true envMiss urlA (Or.inr rfl)).2
     rfl⟩

/-- C6: for every orchestrator with a configured cache backend,
`clear_cache` performs the backend flush and propagates whatever the
backend returns, error included; with no backend configured it is a no-op
(beyond a log warning) that does not raise. -/
theorem C6_clear_cache_contract (self : AsyncEditorialOrchestrator)
    (env : Env) :
    (self.cache_client.isSome = true →
      self.clear_cache env = ([Event.flushdb], env.flushdb)) ∧
    (self.cache_client = none →
      self.clear_cache env = ([], Except.ok ())) := by
  constructor
  · intro h
    cases hc : self.cache_client with
    | none => rw [hc] at h; simp at h
    | some c =>
      unfold AsyncEditorialOrchestrator.clear_cache
      rw [hc]
  · intro h
    unfold AsyncEditorialOrchestrator.clear_cache
    rw [h]

/-- Witness for C6: with a backend, `clear_cache` is exactly the backend
flush; without one it is a silent no-op. -/
theorem C6_clear_cache_contract_witness :
    orchA.cache_client.isSome = true ∧
    orchA.clear_cache envMiss = ([Event.flushdb], envMiss.flushdb) ∧
    (AsyncEditorialOrchestrator.init 1 2 none true).clear_cache envMiss =
      ([], Except.ok ()) :=
  ⟨rfl, (C6_clear_cache_contract orchA envMiss).1 rfl,
   (C6_clear_cache_contract (AsyncEditorialOrchestrator.init 1 2 none true)
     envMiss).2 rfl⟩

/-- C7: for every `CachedEditorial` value, deserializing its serialized
key-value representation yields a value equal to the original in all
observable fields (problem identifier, editorial, tutorial_url,
tutorial_format). -/
theorem C7_cached_editorial_roundtrip (x : CachedEditorial) :
    CachedEditorial.from_dict (CachedEditorial.to_dict x) =
      Except.ok x := by
  cases x with
  | mk p e u f =>
    cases p
    cases e
    cases f <;> rfl

/-- C8: `get_editorial` leaves every orchestrator attribute
(`http_client`, `ai_client`, `cache_client`, `use_cache`) unchanged — the
method body contains no assignment to `self`, so the attribute record it
returns is the one it received, whether the call succeeds or raises. -/
theorem C8_orchestrator_state_unchanged (self : AsyncEditorialOrchestrator)
    (env : Env) (url : String) :
    (self.get_editorial env url).1 = self ∧
    (self.get_editorial env url).1.http_client = self.http_client ∧
    (self.get_editorial env url).1.ai_client = self.ai_client ∧
    (self.get_editorial env url).1.cache_client = self.cache_client ∧
    (self.get_editorial env url).1.use_cache = self.use_cache :=
  ⟨rfl, rfl, rfl, rfl, rfl⟩

/-- C9: when the cache backend returns a present but falsy stored value
(an empty mapping) for the key, the lookup treats it as a miss and the
full pipeline runs, ending in a cache store, even though the key exists
in the backend. -/
theorem C9_falsy_cache_value_is_miss (self : AsyncEditorialOrchestrator)
    (env : Env) (url : String) (identifier : ProblemIdentifier)
    (pd : ProblemData) (turl : String) (td : TutorialData) (ed : Editorial)
    (hurl : env.urlParse url = .ok identifier)
    (huse : self.use_cache = true)
    (hcc : self.cache_client.isSome = true)
    (hget : env.cacheGet identifier.cache_key = .ok (some ([] : Dict)))
    (hpp : env.parseProblemPage identifier = .ok pd)
    (hft : env.findTutorial identifier = .ok turl)
    (hpt : env.parseTutorial turl = .ok td)
    (hex : env.extract td identifier pd.title = .ok ed) :
    (self.get_from_cache env identifier).2 = none ∧
    (self.get_editorial env url).2.1 =
      [Event.cacheGet identifier.cache_key,
       Event.parseProblemPage identifier,
       Event.findTutorial identifier,
       Event.parseTutorial turl,
       Event.extract td identifier pd.title,
       Event.cacheSet identifier.cache_key
         (CachedEditorial.to_dict
           { problem := identifier, editorial := ed,
             tutorial_url := turl, tutorial_format := td.format })] ∧
    (self.get_editorial env url).2.2 = .ok (ed, pd) := by
  have hmiss : (self.get_from_cache env identifier).2 = none := by
    unfold AsyncEditorialOrchestrator.get_from_cache
    cases hc : self.cache_client with
    | none => rfl
    | some c =>
      simp only [hget]
      rfl
  have h1 := get_from_cache_trace self env identifier hcc
  have hgc : self.get_from_cache env identifier =
      ([Event.cacheGet identifier.cache_key], none) := Prod.ext h1 hmiss
  have hsv := save_to_cache_trace self env identifier ed turl td.format hcc
  refine ⟨hmiss, ?_, ?_⟩ <;>
    (unfold AsyncEditorialOrchestrator.get_editorial
      AsyncEditorialOrchestrator.get_editorial_try
     rw [hurl]
     simp [huse, hcc, hgc, hpp, hft, hpt, hex, hsv])

/-- Witness for C9: a concrete run whose backend stores an empty mapping
under the key proceeds through the full pipeline. -/
theorem C9_falsy_cache_value_is_miss_witness :
    envFalsy.cacheGet identifierA.cache_key = .ok (some ([] : Dict)) ∧
    ((orchA.get_from_cache envFalsy identifierA).2 = none ∧
     (orchA.get_editorial envFalsy urlA).2.1 =
       [Event.cacheGet identifierA.cache_key,
        Event.parseProblemPage identifierA,
        Event.findTutorial identifierA,
        Event.parseTutorial tutorialUrlA,
        Event.extract tutorialDataA identifierA problemDataA.title,
        Event.cacheSet identifierA.cache_key
          (CachedEditorial.to_dict
            { problem := identifierA, editorial := editorialA,
              tutorial_url := tutorialUrlA,
              tutorial_format := tutorialDataA.format })] ∧
     (orchA.get_editorial envFalsy urlA).2.2 =
       .ok (editorialA, problemDataA)) :=
  ⟨rfl, C9_falsy_cache_value_is_miss orchA envFalsy urlA identifierA
    problemDataA tutorialUrlA tutorialDataA editorialA rfl rfl rfl rfl rfl
    rfl rfl rfl⟩

/-- C10: when the cache lookup returns a cached editorial but the
subsequent `ProblemData` fetch raises, the whole call fails with the
(possibly wrapped) error; the cached editorial is not returned on its
own and no partial result is produced. -/
theorem C10_cache_hit_fetch_failure_fatal
    (self : AsyncEditorialOrchestrator) (env : Env) (url : String)
    (identifier : ProblemIdentifier) (ed : Editorial) (ex : PyExc)
    (hurl : env.urlParse url = .ok identifier)
    (huse : self.use_cache = true)
    (hcc : self.cache_client.isSome = true)
    (hhit : (self.get_from_cache env identifier).2 = some ed)
    (hpp : env.parseProblemPage identifier = .error ex) :
    (self.get_editorial env url).2.2 = .error (handleError ex) ∧
    ∀ v : Editorial × ProblemData,
      (self.get_editorial env url).2.2 ≠ .ok v := by
  have h1 := get_from_cache_trace self env identifier hcc
  have hgc : self.get_from_cache env identifier =
      ([Event.cacheGet identifier.cache_key], some ed) := Prod.ext h1 hhit
  have hmain :
      (self.get_editorial env url).2.2 = .error (handleError ex) := by
    unfold AsyncEditorialOrchestrator.get_editorial
      AsyncEditorialOrchestrator.get_editorial_try
    rw [hurl]
    simp [huse, hcc, hgc, hpp]
  exact ⟨hmain, fun v hv => by rw [hmain] at hv; exact Except.noConfusion hv⟩

/-- Witness for C10: a concrete run with a valid cached editorial but a
failing problem-page fetch raises the wrapped error and returns nothing. -/
theorem C10_cache_hit_fetch_failure_fatal_witness :
    (orchA.get_from_cache envHitPpErr identifierA).2 = some editorialA ∧
    (orchA.get_editorial envHitPpErr urlA).2.2 =
      .error (handleError exValueError) ∧
    (orchA.get_editorial envHitPpErr urlA).2.2 ≠
      .ok (editorialA, problemDataA) :=
  ⟨rfl,
   (C10_cache_hit_fetch_failure_fatal orchA envHitPpErr urlA identifierA
     editorialA exValueError rfl rfl rfl rfl rfl).1,
   (C10_cache_hit_fetch_failure_fatal orchA envHitPpErr urlA identifierA
     editorialA exValueError rfl rfl rfl rfl rfl).2
     (editorialA, problemDataA)⟩
